import Mathlib

/-
Verification development for the connectivity diagnostic engine in
`src/main.py` (favour-io/network_checker.py).

The Python source is shallowly embedded: pure string manipulation
(hostname validation, regex extraction from ping output, dotted-quad
detection) is translated into executable Lean functions over `String` /
`List Char`; the external collaborators (the `subprocess` ping facility
and the `socket` name-resolution facility) are modelled as explicit
outcome values passed in as oracles, so that the control flow of
`ping_host`, `dns_lookup`, `run_quick_diagnosis` and `run_custom_test`
becomes a total function of those outcomes.  Numeric values produced by
Python's `float(...)` on tokens drawn from `[0-9.]+` are modelled as
exact rationals (no arithmetic is ever performed on them by the source;
they are only carried and compared to the constants 0 and 100).
-/

namespace NetCheck

/-! ### Character classes used by the source's regular expressions -/

/-- Characters accepted by the validator's class `[a-zA-Z0-9.-]`
(`src/main.py` line 29). -/
def hostChar (c : Char) : Bool :=
  c.isAlpha || c.isDigit || c = '.' || c = '-'

/-- Characters of the regex class `[0-9.]` used by the latency and
packet-loss extraction patterns (`src/main.py` lines 42 and 46). -/
def numDot (c : Char) : Bool :=
  c.isDigit || c = '.'

/-- Whitespace characters matched by the patterns' `\s`
(ASCII: space, tab, newline, carriage return, vertical tab, form feed). -/
def wsChar (c : Char) : Bool :=
  c = ' ' || c = '\t' || c = '\n' || c = '\r' || c = '\x0b' || c = '\x0c'

/-! ### Python `re.match` with a `$` anchor

In Python, `re.match(r'^P$', s)` anchors `P` at the start of `s`, and the
`$` anchor matches either at the very end of `s` or just before a single
newline that ends `s`.  Hence a fully-anchored pattern also accepts the
matched text followed by one trailing `'\n'`.  `stripNL` removes that
optional trailing newline before the anchored body is checked. -/

/-- Drop a single trailing newline, if present: the effect of Python's
`$` anchor, which matches before a final `'\n'` as well as at the end. -/
def stripNL (cs : List Char) : List Char :=
  match cs.getLast? with
  | some c => if c = '\n' then cs.dropLast else cs
  | none => cs

/-- Embedding of `re.match(r'^[a-zA-Z0-9.-]+$', hostname)` viewed as a
boolean (`src/main.py` line 29): at least one character of the class,
optionally followed by one trailing newline (the `$` quirk). -/
def matchesHostClass (s : String) : Bool :=
  let core := stripNL s.data
  !core.isEmpty && core.all hostChar

/-- Embedding of `validate_hostname` (`src/main.py` lines 25-31):
reject empty or over-255-character strings, then test the anchored
character-class pattern. -/
def validate_hostname (hostname : String) : Bool :=
  if hostname.data.isEmpty || hostname.length > 255 then false
  else if matchesHostClass hostname then true
  else false

/-! ### The dotted-quad (address-literal) pattern -/

/-- Split a character list on `'.'` separators, keeping empty groups,
as the anchored pattern `\d+(\.\d+)*` decomposition requires. -/
def dotSplit (cs : List Char) : List (List Char) :=
  cs.foldr
    (fun c acc =>
      if c = '.' then [] :: acc
      else
        match acc with
        | [] => [[c]]
        | g :: gs => (c :: g) :: gs)
    [[]]

/-- Embedding of `re.match(r'^\d+\.\d+\.\d+\.\d+$', s)` viewed as a
boolean (`src/main.py` lines 81 and 138): four `'.'`-separated nonempty
digit runs, with the same trailing-newline `$` quirk.  `\d` is modelled
as an ASCII digit (every string reaching this test has passed
`validate_hostname`, whose class is ASCII-only). -/
def ipMatch (s : String) : Bool :=
  let parts := dotSplit (stripNL s.data)
  parts.length = 4 && parts.all (fun p => !p.isEmpty && p.all Char.isDigit)

/-! ### Python `float` on tokens drawn from `[0-9.]+`

The source applies `float(...)` only to regex groups matched by
`[0-9.]+`.  On such strings Python's `float` succeeds exactly when the
token holds at most one dot and at least one digit (so `"."`, `"1.2.3"`
raise `ValueError`), and the value is the literal decimal value.  The
value is modelled as an exact rational. -/

/-- Decimal value of a run of ASCII digits. -/
def natOfDigits (cs : List Char) : ℕ :=
  cs.foldl (fun a c => 10 * a + (c.toNat - 48)) 0

/-- Success condition of Python `float` on a token over `[0-9.]`: at
most one dot and at least one digit. -/
def pyFloatCond (cs : List Char) : Bool :=
  cs.all numDot && cs.count '.' ≤ 1 && cs.any Char.isDigit

/-- Embedding of Python `float(tok)` for tokens over the class `[0-9.]`:
`none` models a raised `ValueError`. -/
def pyFloat (tok : String) : Option ℚ :=
  let cs := tok.data
  if pyFloatCond cs then
    let ipart := cs.takeWhile Char.isDigit
    let fpart := (cs.dropWhile Char.isDigit).drop 1
    some ((natOfDigits ipart : ℚ) + (natOfDigits fpart : ℚ) / (10 : ℚ) ^ fpart.length)
  else none

/-- Evaluation rule for `pyFloat` at a concrete token, with the decimal
pieces supplied as naturals. -/
lemma pyFloat_eq_of (tok : String) (ip fp k : ℕ) (q : ℚ)
    (hcond : pyFloatCond tok.data = true)
    (h1 : natOfDigits (tok.data.takeWhile Char.isDigit) = ip)
    (h2 : natOfDigits ((tok.data.dropWhile Char.isDigit).drop 1) = fp)
    (h3 : ((tok.data.dropWhile Char.isDigit).drop 1).length = k)
    (hq : (ip : ℚ) + (fp : ℚ) / (10 : ℚ) ^ k = q) :
    pyFloat tok = some q := by
  simp only [pyFloat, hcond, if_true]
  rw [h1, h2, h3, hq]

/-! ### `re.search` for the two extraction patterns

Both patterns are backtracking-free: each greedy piece (`[0-9.]+`,
`\s+`, `\s*`) is followed by a character outside its own class, so the
maximal run is the only candidate.  `re.search`'s leftmost-match rule is
realised by scanning start positions left to right. -/

/-- Try to match `([0-9.]+)%\s+packet\s+loss` at the head of `cs`,
returning group 1 (`src/main.py` line 46). -/
def matchLossAt (cs : List Char) : Option String :=
  let run := cs.takeWhile numDot
  let rest := cs.dropWhile numDot
  if run.isEmpty then none
  else
    match rest with
    | '%' :: rest2 =>
      let ws1 := rest2.takeWhile wsChar
      let rest3 := rest2.dropWhile wsChar
      if ws1.isEmpty then none
      else if rest3.take 6 = "packet".data then
        let rest4 := rest3.drop 6
        let ws2 := rest4.takeWhile wsChar
        let rest5 := rest4.dropWhile wsChar
        if ws2.isEmpty then none
        else if rest5.take 4 = "loss".data then some (String.mk run)
        else none
      else none
    | _ => none

/-- Try to match `time=([0-9.]+)\s*ms` at the head of `cs`, returning
group 1 (`src/main.py` line 42). -/
def matchTimeAt (cs : List Char) : Option String :=
  if cs.take 5 = "time=".data then
    let rest := cs.drop 5
    let run := rest.takeWhile numDot
    let rest2 := rest.dropWhile numDot
    if run.isEmpty then none
    else
      let rest3 := rest2.dropWhile wsChar
      if rest3.take 2 = "ms".data then some (String.mk run)
      else none
  else none

/-- Leftmost-match scan: try the head matcher at each successive start
position, as `re.search` does. -/
def scanMatch (f : List Char → Option String) : List Char → Option String
  | [] => f []
  | c :: t =>
    match f (c :: t) with
    | some r => some r
    | none => scanMatch f t

/-- Embedding of `re.search(r'([0-9.]+)%\s+packet\s+loss', out)`,
returning group 1 of the leftmost match. -/
def searchLoss (out : String) : Option String :=
  scanMatch matchLossAt out.data

/-- Embedding of `re.search(r'time=([0-9.]+)\s*ms', out)`, returning
group 1 of the leftmost match. -/
def searchTime (out : String) : Option String :=
  scanMatch matchTimeAt out.data

/-- Group 1 of the loss pattern converted by `float`, when both steps
succeed. -/
def parsedLoss (out : String) : Option ℚ :=
  (searchLoss out).bind pyFloat

/-- Group 1 of the latency pattern converted by `float`, when both
steps succeed. -/
def parsedTime (out : String) : Option ℚ :=
  (searchTime out).bind pyFloat

/-! ### The reachability probe `ping_host` -/

/-- Outcome of the external `subprocess.run(['ping', ...])` call, the
opaque collaborator of `ping_host` (`src/main.py` line 39): the process
completed with a return code and captured stdout, the timeout expired
(`subprocess.TimeoutExpired`), or any other exception was raised while
invoking the facility. -/
inductive PingOutcome where
  | completed (returncode : Int) (stdout : String)
  | timeout
  | execError
  deriving DecidableEq

/-- Embedding of `ping_host` (`src/main.py` lines 33-53) as a function
of the subprocess outcome, returning the `(success, response_time,
packet_loss)` triple.  When a regex group matches but `float` raises
(token such as `"."`), the exception is caught by the function's
catch-all `except` and the result is `(False, 0, 100)`. -/
def ping_host (outcome : PingOutcome) : Bool × ℚ × ℚ :=
  match outcome with
  | .completed rc out =>
    if rc = 0 then
      match searchTime out with
      | none => (true, 0, 0)
      | some tok =>
        match pyFloat tok with
        | some q => (true, q, 0)
        | none => (false, 0, 100)
    else
      match searchLoss out with
      | none => (false, 0, 100)
      | some tok =>
        match pyFloat tok with
        | some q => (false, 0, q)
        | none => (false, 0, 100)
  | .timeout => (false, 0, 100)
  | .execError => (false, 0, 100)

/-! ### The resolution probe `dns_lookup` -/

/-- Full outcome of the external `socket.gethostbyname` call, the
opaque collaborator of `dns_lookup`: an address string, a
`socket.gaierror` carrying some error message (the resolution-failure
exception; the message distinguishes NXDOMAIN from other lookup
errors), or any other exception raised by the facility — CPython's
`gethostbyname` raises `UnicodeError` from the idna codec for a
hostname with an empty or over-63-character label, and such hostnames
(`"."`, 64 repetitions of `'a'`) pass `validate_hostname`. -/
inductive LookupFacilityOutcome where
  | ok (ip : String)
  | gaierror (msg : String)
  | otherExc (msg : String)
  deriving DecidableEq

/-- Faithful embedding of `dns_lookup` (`src/main.py` lines 55-61) over
the full facility outcomes: the `try` block returns `(True, ip)` on
success, `except socket.gaierror` returns the single constant failure
pair, and any other exception is not caught — it escapes the function,
modelled as `Except.error`. -/
def dns_lookup_exc (outcome : LookupFacilityOutcome) :
    Except String (Bool × String) :=
  match outcome with
  | .ok ip => .ok (true, ip)
  | .gaierror _ => .ok (false, "DNS resolution failed")
  | .otherExc msg => .error msg

/-- Recorded (non-escaping) outcomes of the `socket.gethostbyname`
call: the restriction of `LookupFacilityOutcome` to the two outcomes
the `try`/`except socket.gaierror` of `dns_lookup` turns into a
returned value.  The batch-loop claims (C1-C5, C9) presuppose a
recorded resolution outcome per target, so the loop embeddings below
take their lookup oracle in this restricted type; the uncaught
`otherExc` path is treated in claim C8. -/
inductive LookupOutcome where
  | ok (ip : String)
  | gaierror (msg : String)
  deriving DecidableEq

/-- Embedding of `dns_lookup` restricted to the recorded outcomes:
`(True, ip)` on success, and the single constant failure pair on any
`gaierror`, whatever its message. -/
def dns_lookup (outcome : LookupOutcome) : Bool × String :=
  match outcome with
  | .ok ip => (true, ip)
  | .gaierror _ => (false, "DNS resolution failed")

/-- On the recorded outcomes the full embedding and the restricted one
agree: `dns_lookup` is exactly `dns_lookup_exc` on the non-escaping
paths. -/
lemma dns_lookup_exc_agrees (ip msg : String) :
    dns_lookup_exc (.ok ip) = .ok (dns_lookup (.ok ip))
      ∧ dns_lookup_exc (.gaierror msg) = .ok (dns_lookup (.gaierror msg)) :=
  ⟨rfl, rfl⟩

/-! ### Probe records and the batch runner

The menu handlers `run_quick_diagnosis` (`src/main.py` lines 63-117)
and `run_custom_test` (lines 119-157) apply the same per-target step:
if the target matches the dotted-quad pattern, DNS is bypassed and the
target is pinged directly; otherwise `dns_lookup` runs first and the
ping is skipped on resolution failure.  The step is captured as a
record-producing function of the two external oracles. -/

/-- Per-host reachability outcome: `reachable` with the parsed latency,
`unreachable` with the parsed packet-loss percentage, or `skipped` when
the ping was never attempted (resolution failed). -/
inductive ReachabilityResult where
  | reachable (latencyMillis : ℚ)
  | unreachable (packetLossPercent : ℚ)
  | skipped
  deriving DecidableEq

/-- Whether a reachability outcome is a ping success. -/
def ReachabilityResult.isReachable : ReachabilityResult → Bool
  | .reachable _ => true
  | .unreachable _ => false
  | .skipped => false

/-- Per-host resolution outcome. -/
inductive ResolutionResult where
  | resolved (address : String)
  | failed (reason : String)
  deriving DecidableEq

/-- Whether a resolution outcome succeeded. -/
def ResolutionResult.isResolved : ResolutionResult → Bool
  | .resolved _ => true
  | .failed _ => false

/-- Whether a resolution outcome failed. -/
def ResolutionResult.isFailed : ResolutionResult → Bool
  | .resolved _ => false
  | .failed _ => true

/-- One (target, resolution, reachability) tuple of a batch run.
`literal` records whether the target matched the dotted-quad pattern
(DNS bypassed). -/
structure ProbeRecord where
  target : String
  literal : Bool
  resolution : ResolutionResult
  reach : ReachabilityResult
  deriving DecidableEq

/-- Oracle giving the subprocess outcome the ping facility would
produce for each target. -/
def PingOracle : Type := String → PingOutcome

/-- Oracle giving the outcome the name-resolution facility would
produce for each target. -/
def LookupOracle : Type := String → LookupOutcome

/-- Reachability result read off a `ping_host` triple: `Reachable` with
the latency on success, `Unreachable` with the loss on failure
(`src/main.py` lines 82-87, 92-97, 140-154). -/
def reachOf (r : Bool × ℚ × ℚ) : ReachabilityResult :=
  if r.1 then .reachable r.2.1 else .unreachable r.2.2

/-- Per-target step shared by `run_quick_diagnosis` (lines 81-101) and
`run_custom_test` (lines 138-157): dotted-quad targets bypass DNS and
are pinged; other targets are resolved first, and on `gaierror` the
ping is skipped and the resolution recorded as failed with the
constant reason produced by `dns_lookup`. -/
def processTarget (lookup : LookupOracle) (ping : PingOracle)
    (address : String) : ProbeRecord :=
  if ipMatch address then
    { target := address, literal := true
      resolution := .resolved address
      reach := reachOf (ping_host (ping address)) }
  else
    match lookup address with
    | .ok ip =>
      { target := address, literal := false
        resolution := .resolved ip
        reach := reachOf (ping_host (ping address)) }
    | .gaierror msg =>
      { target := address, literal := false
        resolution := .failed (dns_lookup (.gaierror msg)).2
        reach := .skipped }

/-- Batch runner: process the targets strictly in input order, one
record per target. -/
def runBatch (lookup : LookupOracle) (ping : PingOracle)
    (targets : List String) : List ProbeRecord :=
  targets.map (processTarget lookup ping)

/-! ### The diagnostic classifier

`run_quick_diagnosis` folds two flags over the batch: `all_successful`
is cleared on any ping failure or DNS failure (lines 87, 97, 101), and
`dns_working` is cleared on any DNS failure of a name target (line
100).  The final `if`/`elif`/`else` chain (lines 108-117) maps the
flags to a verdict.  The flags are equivalently recomputed from the
record list, which extends the classifier to arbitrary record
sequences; the fold form and the recomputation are proved equal below
(`quickFlags_eq`). -/

/-- The closed set of verdicts the source can print: `Excellent` (line
109), `DNS Issues` (line 112), and the single fallback
`Connectivity Issues` (line 116). -/
inductive Verdict where
  | excellent
  | dnsIssues
  | connectivityIssues
  deriving DecidableEq

/-- Recomputed `all_successful` flag: every record's ping succeeded. -/
def all_successful (records : List ProbeRecord) : Bool :=
  records.all (fun r => r.reach.isReachable)

/-- Recomputed `dns_working` flag: no name-tagged record has a failed
resolution. -/
def dns_working (records : List ProbeRecord) : Bool :=
  !records.any (fun r => !r.literal && r.resolution.isFailed)

/-- The `if all_successful` / `elif not dns_working` / `else` chain of
`src/main.py` lines 108-117. -/
def verdictOfFlags (flags : Bool × Bool) : Verdict :=
  if flags.1 then .excellent
  else if !flags.2 then .dnsIssues
  else .connectivityIssues

/-- The classifier on an arbitrary record sequence: the source's
decision chain applied to the flags recomputed from the records. -/
def classify (records : List ProbeRecord) : Verdict :=
  verdictOfFlags (all_successful records, dns_working records)

/-- One loop iteration of `run_quick_diagnosis` (lines 77-101), acting
on the `(all_successful, dns_working)` accumulator. -/
def quickStep (lookup : LookupOracle) (ping : PingOracle)
    (acc : Bool × Bool) (address : String) : Bool × Bool :=
  if ipMatch address then
    (acc.1 && (ping_host (ping address)).1, acc.2)
  else
    match lookup address with
    | .ok _ => (acc.1 && (ping_host (ping address)).1, acc.2)
    | .gaierror _ => (false, false)

/-- The two flags after the whole loop, starting from `(True, True)`
(lines 74-75). -/
def quickFlags (lookup : LookupOracle) (ping : PingOracle)
    (targets : List String) : Bool × Bool :=
  targets.foldl (quickStep lookup ping) (true, true)

/-- The hard-coded batch of `run_quick_diagnosis` (lines 68-72). -/
def test_services : List String :=
  ["8.8.8.8", "google.com", "cloudflare.com"]

/-- Verdict printed by `run_quick_diagnosis` for a given pair of
oracles: the flag fold followed by the decision chain. -/
def run_quick_diagnosis (lookup : LookupOracle) (ping : PingOracle) : Verdict :=
  verdictOfFlags (quickFlags lookup ping test_services)

/-- A record produced by `processTarget` is reachable exactly when the
ping succeeded, and its resolution fails only in the `gaierror` branch. -/
lemma processTarget_flags (lookup : LookupOracle) (ping : PingOracle)
    (address : String) :
    ((processTarget lookup ping address).reach.isReachable
        = ((if ipMatch address then true
            else (lookup address) matches .ok _)
          && (ping_host (ping address)).1))
      ∧ ((!(processTarget lookup ping address).literal
          && (processTarget lookup ping address).resolution.isFailed)
        = (if ipMatch address then false
           else (lookup address) matches .gaierror _)) := by
  unfold processTarget
  by_cases h : ipMatch address
  · simp [h, reachOf, ReachabilityResult.isReachable]
    by_cases hp : (ping_host (ping address)).1
    · simp [hp, ReachabilityResult.isReachable]
    · simp [hp, ReachabilityResult.isReachable]
  · simp only [h, if_false, Bool.false_and]
    cases hl : lookup address with
    | ok ip =>
      simp [reachOf, ReachabilityResult.isReachable,
        ResolutionResult.isFailed]
      by_cases hp : (ping_host (ping address)).1
      · simp [hp, ReachabilityResult.isReachable]
      · simp [hp, ReachabilityResult.isReachable]
    | gaierror msg =>
      simp [ReachabilityResult.isReachable, ResolutionResult.isFailed]

/-- Generalised fold invariant: the loop flags starting from any
accumulator are the accumulator conjoined with the flags recomputed
from the records of the same batch. -/
lemma quickFlags_from (lookup : LookupOracle) (ping : PingOracle) :
    ∀ (targets : List String) (a b : Bool),
      targets.foldl (quickStep lookup ping) (a, b)
        = (a && all_successful (runBatch lookup ping targets),
           b && dns_working (runBatch lookup ping targets)) := by
  intro targets
  induction targets with
  | nil => intro a b; simp [runBatch, all_successful, dns_working]
  | cons t ts ih =>
    intro a b
    have hflags := processTarget_flags lookup ping t
    simp only [runBatch, List.map_cons, List.foldl_cons, all_successful,
      dns_working, List.all_cons, List.any_cons]
    rw [show quickStep lookup ping (a, b) t
        = (a && (processTarget lookup ping t).reach.isReachable,
           b && !(!(processTarget lookup ping t).literal
                  && (processTarget lookup ping t).resolution.isFailed)) from ?_]
    · rw [show (runBatch lookup ping ts) = ts.map (processTarget lookup ping) from rfl] at ih
      rw [ih]
      simp [all_successful, dns_working, Bool.and_assoc, Bool.not_or]
    · rw [hflags.1, hflags.2]
      unfold quickStep
      by_cases h : ipMatch t
      · simp [h]
      · simp only [h, if_false]
        cases hl : lookup t with
        | ok ip => simp
        | gaierror msg => simp

/-- The loop flags of `run_quick_diagnosis` coincide with the flags
recomputed from the batch's records: the extracted `classify` is the
source's classifier. -/
lemma quickFlags_eq (lookup : LookupOracle) (ping : PingOracle)
    (targets : List String) :
    quickFlags lookup ping targets
      = (all_successful (runBatch lookup ping targets),
         dns_working (runBatch lookup ping targets)) := by
  unfold quickFlags
  rw [quickFlags_from lookup ping targets true true]
  simp

/-- `run_quick_diagnosis` prints exactly `classify` of its batch. -/
lemma run_quick_diagnosis_eq_classify (lookup : LookupOracle) (ping : PingOracle) :
    run_quick_diagnosis lookup ping
      = classify (runBatch lookup ping test_services) := by
  unfold run_quick_diagnosis classify
  rw [quickFlags_eq]

/-! ### Spec-side predicates used to compare the code with the claims -/

/-- The validator acceptance condition as the spec words it: non-empty,
at most 255 characters, and every character drawn from `[a-zA-Z0-9.-]`. -/
def claimValidate (s : String) : Prop :=
  s.data ≠ [] ∧ s.length ≤ 255 ∧ ∀ c ∈ s.data, hostChar c = true

/-- The address-literal condition as the spec words it: four
`'.'`-separated integers, each in 0-255. -/
def quad255 (s : String) : Bool :=
  let parts := dotSplit s.data
  parts.length = 4
    && parts.all (fun p => !p.isEmpty && p.all Char.isDigit
        && natOfDigits p ≤ 255)

/-- The `DnsIssues` premise as the spec words it: some record with a
resolved (or trivially resolved literal) target is reachable, and some
name-tagged record has a failed resolution. -/
def claimDnsPremise (records : List ProbeRecord) : Bool :=
  records.any (fun r => r.resolution.isResolved && r.reach.isReachable)
    && records.any (fun r => !r.literal && r.resolution.isFailed)

/-- Number of reachable records of a batch. -/
def countReachable (records : List ProbeRecord) : ℕ :=
  (records.filter (fun r => r.reach.isReachable)).length

/-- Resolution outcome recorded for a name target, as a function of the
lookup facility's answer. -/
def resolutionOf (out : LookupOutcome) : ResolutionResult :=
  match out with
  | .ok ip => .resolved ip
  | .gaierror msg => .failed (dns_lookup (.gaierror msg)).2

/-! ### Concrete fixtures for counterexamples and witnesses -/

/-- Lookup oracle whose facility fails every query. -/
def lookupAllFail : LookupOracle := fun _ => .gaierror "Name or service not known"

/-- Lookup oracle whose facility resolves every query. -/
def lookupAllOk : LookupOracle := fun _ => .ok "93.184.216.34"

/-- Ping oracle whose subprocess always hits the timeout. -/
def pingAllTimeout : PingOracle := fun _ => .timeout

/-- Ping oracle whose subprocess always succeeds with a parseable
latency. -/
def pingAllOk : PingOracle := fun _ => .completed 0 "time=12 ms"

/-- A literal target whose ping failed. -/
def recLitUnreach : ProbeRecord :=
  { target := "8.8.8.8", literal := true
    resolution := .resolved "8.8.8.8", reach := .unreachable 100 }

/-- A literal target whose ping succeeded. -/
def recLitReach : ProbeRecord :=
  { target := "1.1.1.1", literal := true
    resolution := .resolved "1.1.1.1", reach := .reachable 12 }

/-- A name target whose resolution failed (ping skipped). -/
def recNameFailed : ProbeRecord :=
  { target := "google.com", literal := false
    resolution := .failed "DNS resolution failed", reach := .skipped }

/-! ### Claim C1 -/

/-- Claim C1 counterexample: in the batch [literal target Unreachable,
name target with Failed resolution] no resolved record is Reachable, so
the claim's rule premise is false; the code nonetheless classifies the
batch as `DnsIssues`, because the `elif not dns_working` test never
checks that any record was reachable. -/
theorem claim1_counterexample :
    classify [recLitUnreach, recNameFailed] = Verdict.dnsIssues
      ∧ claimDnsPremise [recLitUnreach, recNameFailed] = false := by
  decide

/-- Claim C1 as amended: for a non-empty batch that is not
all-Reachable, the classifier returns `DnsIssues` exactly when some
name-tagged record has a failed resolution — with no requirement that
any resolved or literal record be reachable; the rule is still
evaluated second, after the all-Reachable rule, first match winning. -/
theorem claim1_dns_rule (records : List ProbeRecord)
    (_hne : records ≠ []) (hall : all_successful records = false) :
    classify records = Verdict.dnsIssues
      ↔ records.any (fun r => !r.literal && r.resolution.isFailed) = true := by
  unfold classify verdictOfFlags
  dsimp only
  rw [hall]
  cases hany : records.any (fun r => !r.literal && r.resolution.isFailed) with
  | false => simp [dns_working, hany]
  | true => simp [dns_working, hany]

/-- Witness for C1's amended rule on a concrete one-record batch. -/
theorem claim1_witness : classify [recNameFailed] = Verdict.dnsIssues :=
  (claim1_dns_rule [recNameFailed] (by decide) (by decide)).mpr (by decide)

/-! ### Claim C2 -/

/-- Claim C2 counterexample: a batch with zero reachable records and a
batch with a reachable count strictly between 0 and the total receive
the very same fallback verdict — there is no distinct `NoConnectivity`
verdict in the code, only the single `Connectivity Issues` branch. -/
theorem claim2_counterexample :
    countReachable [recLitUnreach] = 0
      ∧ countReachable [recLitReach, recLitUnreach] = 1
      ∧ classify [recLitUnreach] = Verdict.connectivityIssues
      ∧ classify [recLitReach, recLitUnreach] = classify [recLitUnreach] := by
  decide

/-- Claim C2 as amended: whenever neither the all-Reachable rule nor
the DNS rule fires, the classifier returns the single fallback verdict
`connectivityIssues`, regardless of whether the reachable count is zero
or strictly between zero and the total. -/
theorem claim2_fallback (records : List ProbeRecord)
    (hall : all_successful records = false)
    (hdns : dns_working records = true) :
    classify records = Verdict.connectivityIssues := by
  unfold classify verdictOfFlags
  dsimp only
  rw [hall, hdns]
  rfl

/-- Witness for C2's amended fallback on a concrete batch. -/
theorem claim2_witness : classify [recLitUnreach] = Verdict.connectivityIssues :=
  claim2_fallback [recLitUnreach] (by decide) (by decide)

/-! ### Claim C3 -/

/-- Claim C3 counterexample: invoked on zero records the classifier
does not signal any error — it silently returns the default verdict
`Excellent`, since the `all_successful` flag is vacuously true. -/
theorem claim3_counterexample : classify [] = Verdict.excellent := rfl

/-- Claim C3 as amended: for an empty record sequence the classifier's
all-Reachable flag holds vacuously and the verdict is `Excellent`; no
`EmptyBatch` error exists anywhere in the code. -/
theorem claim3_empty_default (records : List ProbeRecord)
    (h : records.isEmpty = true) :
    classify records = Verdict.excellent ∧ all_successful records = true := by
  have hnil : records = [] := List.isEmpty_iff.mp h
  subst hnil
  exact ⟨rfl, rfl⟩

/-- Witness for C3's amended statement at the empty batch. -/
theorem claim3_witness :
    classify [] = Verdict.excellent ∧ all_successful [] = true :=
  claim3_empty_default [] rfl

/-! ### Claim C4 -/

/-- Unfolded acceptance condition of the validator: non-empty data, at
most 255 characters, and the anchored class pattern matches. -/
lemma validate_true_iff (s : String) :
    validate_hostname s = true
      ↔ s.data ≠ [] ∧ s.length ≤ 255 ∧ matchesHostClass s = true := by
  unfold validate_hostname
  by_cases h1 : s.data.isEmpty
  · simp only [h1, Bool.true_or, if_true, Bool.false_eq_true, false_iff]
    intro hc
    exact hc.1 (List.isEmpty_iff.mp h1)
  · by_cases h2 : s.length > 255
    · rw [if_pos (by simp [h2])]
      simp only [Bool.false_eq_true, false_iff]
      intro hc
      exact absurd hc.2.1 (by omega)
    · rw [if_neg (by simp [h1, h2])]
      by_cases h3 : matchesHostClass s
      · simp only [h3, if_true, true_iff]
        exact ⟨fun h => absurd (List.isEmpty_iff.mpr h) (by simp [h1]),
          by omega, trivial⟩
      · simp only [h3, Bool.false_eq_true, if_false, false_iff]
        intro hc
        exact absurd hc.2.2 (by simp [h3])

/-- Claim C4 counterexample: the string `"a\n"` contains a newline —
a character outside `[a-zA-Z0-9.-]` — yet `validate_hostname` accepts
it, because Python's `$` anchor also matches just before a single
trailing newline. -/
theorem claim4_counterexample :
    validate_hostname "a\n" = true ∧ ¬ claimValidate "a\n" := by
  refine ⟨by decide, fun h => ?_⟩
  exact absurd (h.2.2 '\n' (by decide)) (by decide)

/-- Claim C4 as amended: `validate` returns true exactly when the
string is at most 255 characters and consists of at least one character
of `[a-zA-Z0-9.-]`, optionally followed by one trailing newline (an
artifact of the `$` anchor of `re.match`); everything else — including
any other forbidden character — is rejected. -/
theorem claim4_validator_rule (s : String) :
    validate_hostname s = true
      ↔ s.length ≤ 255
        ∧ ((s.data ≠ [] ∧ ∀ c ∈ s.data, hostChar c = true)
            ∨ (∃ t : List Char, s.data = t ++ ['\n'] ∧ t ≠ []
                ∧ ∀ c ∈ t, hostChar c = true)) := by
  rw [validate_true_iff]
  constructor
  · rintro ⟨hne, hle, hm⟩
    refine ⟨hle, ?_⟩
    unfold matchesHostClass stripNL at hm
    rw [Bool.and_eq_true] at hm
    obtain ⟨hce, hca⟩ := hm
    cases hlast : s.data.getLast? with
    | none => exact absurd (List.getLast?_eq_none_iff.mp hlast) hne
    | some c =>
      rw [hlast] at hce hca
      dsimp only at hce hca
      by_cases hc : c = '\n'
      · subst hc
        rw [if_pos rfl] at hce hca
        right
        refine ⟨s.data.dropLast, ?_, ?_, ?_⟩
        · exact (List.dropLast_append_getLast? '\n'
            (Option.mem_def.mpr hlast)).symm
        · intro h
          rw [h] at hce
          simp at hce
        · intro c hcm
          exact List.all_eq_true.mp hca c hcm
      · rw [if_neg hc] at hce hca
        left
        exact ⟨hne, fun c hcm => List.all_eq_true.mp hca c hcm⟩
  · rintro ⟨hle, hrest⟩
    rcases hrest with ⟨hne, hall⟩ | ⟨t, ht, htne, hall⟩
    · refine ⟨hne, hle, ?_⟩
      unfold matchesHostClass stripNL
      cases hlast : s.data.getLast? with
      | none => exact absurd (List.getLast?_eq_none_iff.mp hlast) hne
      | some c =>
        dsimp only
        have hcm : c ∈ s.data :=
          List.mem_of_mem_getLast? (Option.mem_def.mpr hlast)
        have hhc : hostChar c = true := hall c hcm
        have hcne : c ≠ '\n' := by
          intro h
          subst h
          exact absurd hhc (by decide)
        rw [if_neg hcne]
        simp [List.isEmpty_iff, hne, List.all_eq_true]
        exact fun c hcm => hall c hcm
    · have hne : s.data ≠ [] := by simp [ht]
      refine ⟨hne, hle, ?_⟩
      unfold matchesHostClass stripNL
      rw [ht, List.getLast?_concat]
      dsimp only
      rw [if_pos rfl, List.dropLast_concat]
      simp [List.isEmpty_iff, htne, List.all_eq_true]
      exact fun c hcm => hall c hcm

/-- Witness for C4's amended rule at a concrete accepted hostname. -/
theorem claim4_witness :
    validate_hostname "server-01.example.com" = true :=
  (claim4_validator_rule "server-01.example.com").mpr
    ⟨by decide, Or.inl ⟨by decide, by decide⟩⟩

/-! ### Claim C5 -/

/-- Claim C5 counterexample: `"999.999.999.999"` passes validation and
matches the code's `^\d+\.\d+\.\d+\.\d+$` test, so resolution is
bypassed (the record carries the target itself as address, identically
under a failing and a succeeding lookup facility) — yet it is not a
dotted quad of integers 0-255, refuting "bypasses exactly when four
integers each in 0-255". -/
theorem claim5_counterexample :
    validate_hostname "999.999.999.999" = true
      ∧ quad255 "999.999.999.999" = false
      ∧ (processTarget lookupAllFail pingAllTimeout "999.999.999.999").resolution
          = ResolutionResult.resolved "999.999.999.999"
      ∧ processTarget lookupAllFail pingAllTimeout "999.999.999.999"
          = processTarget lookupAllOk pingAllTimeout "999.999.999.999" := by
  decide

/-- Claim C5 as amended: resolution is bypassed exactly when the target
matches four `'.'`-separated nonempty digit runs of any value (pattern
`^\d+\.\d+\.\d+\.\d+$`, 0-255 not enforced); such targets resolve to
themselves with the lookup facility never consulted, and every other
target's resolution is exactly what the lookup facility answers. -/
theorem claim5_bypass_rule (s : String) (l l' : LookupOracle) (p : PingOracle) :
    (ipMatch s = true →
        (processTarget l p s).resolution = ResolutionResult.resolved s
          ∧ processTarget l p s = processTarget l' p s)
      ∧ (ipMatch s = false →
          (processTarget l p s).resolution = resolutionOf (l s)) := by
  constructor
  · intro h
    unfold processTarget
    simp [h]
  · intro h
    unfold processTarget
    simp only [h, Bool.false_eq_true, if_false]
    cases hl : l s with
    | ok ip => simp [resolutionOf]
    | gaierror msg => simp [resolutionOf]

/-- Witness for C5's amended rule: a bypassed literal and a looked-up
name. -/
theorem claim5_witness :
    (processTarget lookupAllFail pingAllTimeout "999.999.999.999").resolution
        = ResolutionResult.resolved "999.999.999.999"
      ∧ (processTarget lookupAllFail pingAllTimeout "google.com").resolution
          = resolutionOf (lookupAllFail "google.com") :=
  ⟨((claim5_bypass_rule "999.999.999.999" lookupAllFail lookupAllOk
      pingAllTimeout).1 (by decide)).1,
   (claim5_bypass_rule "google.com" lookupAllFail lookupAllOk
      pingAllTimeout).2 (by decide)⟩

/-! ### Claim C6 -/

/-- Claim C6: the reachability probe never raises past its boundary —
timeout expiry yields `Unreachable` with packet loss 100, any other
probe-execution error yields `Unreachable` with packet loss 100, and a
failed exchange yields `Unreachable` with the parsed loss percentage
when one parses, defaulting to 100 otherwise. -/
theorem claim6_ping_failure_modes (rc : Int) (out : String) :
    ping_host .timeout = (false, 0, 100)
      ∧ ping_host .execError = (false, 0, 100)
      ∧ (rc ≠ 0 → ∀ q : ℚ, parsedLoss out = some q →
          ping_host (.completed rc out) = (false, 0, q))
      ∧ (rc ≠ 0 → parsedLoss out = none →
          ping_host (.completed rc out) = (false, 0, 100)) := by
  refine ⟨rfl, rfl, ?_, ?_⟩
  · intro h q hq
    unfold ping_host
    simp only [if_neg h]
    unfold parsedLoss at hq
    cases hs : searchLoss out with
    | none => rw [hs] at hq; simp at hq
    | some tok =>
      rw [hs] at hq
      simp only [Option.some_bind] at hq
      simp [hs, hq]
  · intro h hn
    unfold ping_host
    simp only [if_neg h]
    unfold parsedLoss at hn
    cases hs : searchLoss out with
    | none => simp [hs]
    | some tok =>
      rw [hs] at hn
      simp only [Option.some_bind] at hn
      simp [hs, hn]

/-- Witness for C6 at two concrete failed exchanges: one with a
parseable loss percentage, one without. -/
theorem claim6_witness :
    ping_host (.completed 1 "4 packets transmitted, 0 received, 50% packet loss, time 3ms")
        = (false, 0, 50)
      ∧ ping_host (.completed 1 "garbage output") = (false, 0, 100) := by
  constructor
  · have hp : parsedLoss "4 packets transmitted, 0 received, 50% packet loss, time 3ms"
        = some 50 := by
      unfold parsedLoss
      rw [show searchLoss "4 packets transmitted, 0 received, 50% packet loss, time 3ms"
          = some "50" from by decide, Option.some_bind]
      exact pyFloat_eq_of "50" 50 0 0 50 (by decide) rfl rfl rfl (by norm_num)
    exact (claim6_ping_failure_modes 1
      "4 packets transmitted, 0 received, 50% packet loss, time 3ms").2.2.1
      (by decide) 50 hp
  · exact (claim6_ping_failure_modes 1 "garbage output").2.2.2 (by decide) (by decide)

/-! ### Claim C7 -/

/-- Claim C7 counterexample: an exchange that reports overall success
(return code 0) whose output matches the latency pattern with the
group `"."` makes the conversion raise, and the probe's catch-all turns
the successful exchange into the failure result `(False, 0, 100)` —
refuting "a successful exchange never yields a failure result". -/
theorem claim7_counterexample :
    searchTime "time=. ms" = some "."
      ∧ ping_host (.completed 0 "time=. ms") = (false, 0, 100) := by
  decide

/-- Claim C7 as amended: on a successful exchange the probe returns
`Reachable` with the parsed latency, or latency 0 when no latency
pattern matches; but when the pattern matches with a group that is not
a valid number (such as `"."`), the conversion error is caught by the
catch-all and the probe returns `Unreachable` with loss 100. -/
theorem claim7_success_latency (out : String) :
    (searchTime out = none → ping_host (.completed 0 out) = (true, 0, 0))
      ∧ (∀ tok q, searchTime out = some tok → pyFloat tok = some q →
          ping_host (.completed 0 out) = (true, q, 0))
      ∧ (∀ tok, searchTime out = some tok → pyFloat tok = none →
          ping_host (.completed 0 out) = (false, 0, 100)) := by
  refine ⟨?_, ?_, ?_⟩
  · intro hs
    unfold ping_host
    simp [hs]
  · intro tok q hs hq
    unfold ping_host
    simp [hs, hq]
  · intro tok hs hn
    unfold ping_host
    simp [hs, hn]

/-- Witness for C7's amended statement at three concrete outputs. -/
theorem claim7_witness :
    ping_host (.completed 0 "no latency in this output") = (true, 0, 0)
      ∧ ping_host (.completed 0 "64 bytes: icmp_seq=1 ttl=117 time=12.5 ms")
          = (true, (25 : ℚ) / 2, 0) :=
  ⟨(claim7_success_latency "no latency in this output").1 (by decide),
   (claim7_success_latency "64 bytes: icmp_seq=1 ttl=117 time=12.5 ms").2.1
      "12.5" ((25 : ℚ) / 2) (by decide)
      (pyFloat_eq_of "12.5" 12 5 1 ((25 : ℚ) / 2) (by decide) rfl rfl rfl
        (by norm_num))⟩

/-! ### Claim C8 -/

/-- Claim C8 counterexample: the hostname `"."` passes the validator
and is not an address literal, so the program reaches
`dns_lookup(".")`; there CPython's `gethostbyname` raises
`UnicodeError` (idna codec, empty label), which `except socket.gaierror`
does not catch — the lookup failure escapes the resolve boundary as an
exception instead of mapping to the `Failed` outcome, refuting "no
lookup failure escapes the resolve boundary as an exception". -/
theorem claim8_counterexample :
    validate_hostname "." = true
      ∧ ipMatch "." = false
      ∧ dns_lookup_exc
          (.otherExc "encoding with idna codec failed: label empty or too long")
        = Except.error "encoding with idna codec failed: label empty or too long" := by
  refine ⟨by decide, by decide, rfl⟩

/-- Claim C8 as amended: `resolve` returns `Resolved{address}` on
success and maps every `gaierror`, whatever its message (the engine
does not distinguish NXDOMAIN from other resolution errors), to the
single constant `Failed` outcome with no retry; but only `gaierror` is
caught — any other exception raised by the lookup facility (such as
`UnicodeError` for a validator-admitted hostname with an empty or
over-63-character label) escapes the resolve boundary uncaught. -/
theorem claim8_lookup_exc_rule (ip msg msg' e : String) :
    dns_lookup_exc (.ok ip) = .ok (true, ip)
      ∧ dns_lookup_exc (.gaierror msg) = .ok (false, "DNS resolution failed")
      ∧ dns_lookup_exc (.gaierror msg) = dns_lookup_exc (.gaierror msg')
      ∧ dns_lookup_exc (.otherExc e) = .error e :=
  ⟨rfl, rfl, rfl, rfl⟩

/-! ### Claim C9 -/

/-- Claim C9: a target whose resolution failed is recorded with
`Skipped` reachability, the ping oracle is never consulted for it (the
record is the same under any ping oracle), and the batch runner keeps
one record per target in input order. -/
theorem claim9_skip_on_resolution_failure (l : LookupOracle)
    (p p' : PingOracle) (targets : List String) (i : ℕ) (t msg : String) :
    (runBatch l p targets).length = targets.length
      ∧ (targets[i]? = some t → ipMatch t = false → l t = .gaierror msg →
          (runBatch l p targets)[i]? = some (processTarget l p t)
            ∧ (processTarget l p t).reach = .skipped
            ∧ processTarget l p t = processTarget l p' t) := by
  constructor
  · exact List.length_map _ _
  · intro ht hip hl
    refine ⟨?_, ?_, ?_⟩
    · unfold runBatch
      rw [List.getElem?_map, ht]
      rfl
    · unfold processTarget
      simp [hip, hl]
    · unfold processTarget
      simp [hip, hl]

/-- Witness for C9: a two-target batch whose first target fails
resolution keeps both records in order, records `Skipped` for the
failed one, and its record is identical under two different ping
oracles. -/
theorem claim9_witness :
    (runBatch lookupAllFail pingAllTimeout ["bad.example", "8.8.8.8"]).length = 2
      ∧ (runBatch lookupAllFail pingAllTimeout ["bad.example", "8.8.8.8"])[0]?
          = some (processTarget lookupAllFail pingAllTimeout "bad.example")
      ∧ (processTarget lookupAllFail pingAllTimeout "bad.example").reach
          = .skipped
      ∧ processTarget lookupAllFail pingAllTimeout "bad.example"
          = processTarget lookupAllFail pingAllOk "bad.example" := by
  have h := claim9_skip_on_resolution_failure lookupAllFail pingAllTimeout
    pingAllOk ["bad.example", "8.8.8.8"] 0 "bad.example"
    "Name or service not known"
  have h2 := h.2 rfl (by decide) rfl
  exact ⟨h.1, h2.1, h2.2.1, h2.2.2⟩

/-! ### Claim C10 -/

/-- Shape analysis of `ping_host`: every result is either a success
`(True, latency, 0)` or a failure `(False, 0, loss)`. -/
lemma ping_host_cases (o : PingOutcome) :
    (∃ q, ping_host o = (true, q, 0)) ∨ (∃ q, ping_host o = (false, 0, q)) := by
  cases o with
  | completed rc out =>
    simp only [ping_host]
    by_cases hrc : rc = 0
    · rw [if_pos hrc]
      cases searchTime out with
      | none => exact Or.inl ⟨0, rfl⟩
      | some tok =>
        dsimp only
        cases pyFloat tok with
        | none => exact Or.inr ⟨100, rfl⟩
        | some q => exact Or.inl ⟨q, rfl⟩
    · rw [if_neg hrc]
      cases searchLoss out with
      | none => exact Or.inr ⟨100, rfl⟩
      | some tok =>
        dsimp only
        cases pyFloat tok with
        | none => exact Or.inr ⟨100, rfl⟩
        | some q => exact Or.inr ⟨q, rfl⟩
  | timeout => exact Or.inr ⟨100, rfl⟩
  | execError => exact Or.inr ⟨100, rfl⟩

/-- Claim C10: every `ping_host` result `(success, latency, loss)`
satisfies the invariant that success forces loss 0, failure forces
latency 0, and the two measurement fields are never both nonzero. -/
theorem claim10_ping_invariant (o : PingOutcome) :
    ((ping_host o).1 = true → (ping_host o).2.2 = 0)
      ∧ ((ping_host o).1 = false → (ping_host o).2.1 = 0)
      ∧ ((ping_host o).2.1 ≠ 0 → (ping_host o).2.2 = 0) := by
  rcases ping_host_cases o with ⟨q, h⟩ | ⟨q, h⟩ <;> rw [h]
  · exact ⟨fun _ => rfl, fun hc => by simp at hc, fun _ => rfl⟩
  · exact ⟨fun hc => by simp at hc, fun _ => rfl, fun hc => absurd rfl hc⟩

/-- Witness for C10 at a concrete failure and a concrete success. -/
theorem claim10_witness :
    (ping_host PingOutcome.timeout).2.1 = 0
      ∧ (ping_host (PingOutcome.completed 0 "time=12 ms")).2.2 = 0 :=
  ⟨(claim10_ping_invariant PingOutcome.timeout).2.1 rfl,
   (claim10_ping_invariant (PingOutcome.completed 0 "time=12 ms")).1 (by decide)⟩

end NetCheck
